import Mathlib

/-!
Shallow embedding of the checkout orchestration core of
`src/graph/mcp_adapter/Server_F.py` (hotel/flight checkout, TTL context
store, one-shot search gates, price reconciliation, Stripe session
building, finalization routes), together with theorems settling the
frozen claims about it.

External collaborators (the Duffel travel-provider client and the Stripe
payment-provider client) are passed in as function parameters, matching
the narrow interfaces through which the source consumes them.  Python
dicts keyed by `ctx_id` become association lists; HTTP responses become
an inductive type carrying the status code; exact decimal amounts
(Python `Decimal`) become rationals.
-/

namespace ServerF

/-- CURRENCY_WHITELIST from Server_F.py: the only allowed currency. -/
def CURRENCY_WHITELIST : List String := ["AUD"]

/-- ZERO_DECIMAL from Server_F.py: currencies whose minor unit is the unit itself. -/
def ZERO_DECIMAL : List String := ["JPY", "KRW"]

/-- Python `int(Decimal d)`: truncation toward zero of an exact decimal value. -/
def pyIntTrunc (q : ℚ) : ℤ :=
  if q < 0 then -(Int.floor (-q)) else Int.floor q

/-- Conversion of an exact decimal amount to payment-provider minor units, as done at
every session-build and verification site in Server_F.py:
`int(Decimal(amt) * (Decimal 1 if ccy in ZERO_DECIMAL else Decimal 100))`. -/
def toMinorUnits (amt : ℚ) (ccy : String) : ℤ :=
  pyIntTrunc (amt * (if ccy ∈ ZERO_DECIMAL then 1 else 100))

/-- Result of reconciling the settled payment against the authoritative price. -/
inductive VerifyResult where
  | Ok : VerifyResult
  | Mismatch : VerifyResult
deriving DecidableEq, Repr

/-- The settled-amount check performed by `success_route` and `flight_success_route`:
`if ses_ccy != exp_ccy or ses_amt != exp_cents` refuses, otherwise proceeds. -/
def verifySettled (expAmt : ℚ) (expCcy : String) (sesAmt : ℤ) (sesCcy : String) :
    VerifyResult :=
  if sesCcy = expCcy ∧ sesAmt = toMinorUnits expAmt expCcy then .Ok else .Mismatch

/-- Association-list lookup, modelling Python `dict.get`. -/
def mapGet {α : Type} (m : List (String × α)) (k : String) : Option α :=
  (m.find? (fun p => p.1 = k)).map (fun p => p.2)

/-- Association-list removal, modelling Python `dict.pop(k, None)`. -/
def mapPop {α : Type} (m : List (String × α)) (k : String) : List (String × α) :=
  m.filter (fun p => p.1 ≠ k)

/-- Association-list assignment, modelling Python `dict[k] = v`. -/
def mapSet {α : Type} (m : List (String × α)) (k : String) (v : α) :
    List (String × α) :=
  (k, v) :: m.filter (fun p => p.1 ≠ k)

/-- Python `a or b` on strings: the empty string is falsy. -/
def pyOr (a b : String) : String :=
  if a = "" then b else a

/-- Python slicing `s[-n:]`: the last `n` characters, or all of `s` when it is shorter. -/
def pyLast (n : ℕ) (s : String) : String :=
  String.mk (s.toList.drop (s.length - n))

/-- Python `str.startswith`. -/
def pyStartsWith (s pre : String) : Bool :=
  pre.toList.isPrefixOf s.toList

/-- A character admissible in EMAIL_RE character classes: anything but `@` and whitespace. -/
def isEmailChar (c : Char) : Bool :=
  c != '@' && !c.isWhitespace

/-- EMAIL_RE.match from Server_F.py, for the anchored pattern requiring one `@`,
a non-empty local part, and a domain with an interior dot, all free of `@` and
whitespace. -/
def emailOk (s : String) : Bool :=
  let cs := s.toList
  let l := cs.takeWhile (fun c => c != '@')
  match cs.dropWhile (fun c => c != '@') with
  | '@' :: d =>
      !l.isEmpty && !d.contains '@' && l.all isEmailChar && d.all isEmailChar &&
        ((d.drop 1).dropLast.contains '.')
  | _ => false

/-- Python `str.strip()`: drops leading and trailing whitespace. -/
def pyStrip (s : String) : String :=
  String.mk (((s.toList.dropWhile Char.isWhitespace).reverse.dropWhile
    Char.isWhitespace).reverse)

/-- Python `str.lower()`. -/
def pyToLower (s : String) : String :=
  String.mk (s.toList.map Char.toLower)

/-- Python `str.upper()`. -/
def pyToUpper (s : String) : String :=
  String.mk (s.toList.map Char.toUpper)

/-- An HTTP response with its status code, as produced by the Starlette routes. -/
inductive Response where
  | redirect (url : String) (code : ℕ) : Response
  | plain (body : String) (code : ℕ) : Response
  | html (code : ℕ) : Response
deriving DecidableEq, Repr

/-- Status code of a response. -/
def Response.code : Response → ℕ
  | .redirect _ c => c
  | .plain _ c => c
  | .html c => c

/-- A hotel guest (given and family name, as validated by start_hotel_checkout). -/
structure Guest where
  given_name : String
  family_name : String
deriving DecidableEq, Repr

/-- A flight passenger; email and phone are injected from the contact fields by
`setdefault` during start_flight_checkout. -/
structure Passenger where
  given_name : String
  family_name : String
  born_on : String
  email : Option String := none
  phone_number : Option String := none
deriving DecidableEq, Repr

/-- A CHECKOUT_CTX entry: the stored hotel checkout intent. -/
structure HotelCtx where
  ctx_id : String
  rate_id : String
  email : String
  guests : List Guest
  search_result_id : String
  phone_number : String
  stay_special_requests : String
  hotel_name : String
  room_name : String
  desc : String
  created_at : ℚ
deriving DecidableEq, Repr

/-- A FLIGHT_CHECKOUT_CTX entry: the stored flight checkout intent.  The source
stores `amount` as the string produced by two-decimal formatting of the reconciled
total; it is modelled by the exact value it denotes. -/
structure FlightCtx where
  ctx_id : String
  offer_id : String
  passengers : List Passenger
  email : String
  phone_number : String
  currency : String
  base_amount : ℚ
  seat_total : ℚ
  amount : ℚ
  services : List String
  created_at : ℚ
deriving DecidableEq, Repr

/-- A CHECKOUT_STATUS entry (the Status Tracker). -/
structure StatusEntry where
  type : String
  status : String
  currency : Option String := none
  amount : Option ℚ := none
deriving DecidableEq, Repr

end ServerF

namespace ServerF

/-! One-shot gates.  The source keeps three module-level booleans
(BLOCK_NEXT_HOTEL_SEARCH, BLOCK_NEXT_FLIGHT_SEARCH, BLOCK_NEXT_ROOM_RATES),
set by the widget beacon routes and read-and-reset by the corresponding
search tools.  In the single-threaded event loop of the source each of the
two steps below runs without a suspension point, hence atomically. -/

/-- The state of the three one-shot gate latches. -/
structure Gates where
  BLOCK_NEXT_HOTEL_SEARCH : Bool
  BLOCK_NEXT_FLIGHT_SEARCH : Bool
  BLOCK_NEXT_ROOM_RATES : Bool
deriving DecidableEq, Repr

/-- All latches clear, the module initial state. -/
def Gates.initial : Gates :=
  ⟨false, false, false⟩

/-- The read-and-reset a search tool performs on its latch
(`if FLAG: FLAG = False`): the observed value and the new latch value. -/
def consumeIfTripped (b : Bool) : Bool × Bool :=
  (b, false)

/-- The set a widget beacon route performs on its latch (`FLAG = True`). -/
def tripGate (_b : Bool) : Bool :=
  true

/-- Outcome of a gated search tool call. -/
inductive SearchOutcome where
  | refusal (reason : String) : SearchOutcome
  | searched : SearchOutcome
  | unavailable (msg : String) : SearchOutcome
  | invalid (msg : String) : SearchOutcome
deriving DecidableEq, Repr

/-- The search_flights_ui branch of _call_tool_request: when the flight latch is
tripped, consume it and return the structured refusal (isError, reason
widget_selection) without invoking the provider search; otherwise run the search. -/
def search_flights_ui (g : Gates) : SearchOutcome × Gates :=
  let c := consumeIfTripped g.BLOCK_NEXT_FLIGHT_SEARCH
  if c.1 then
    (.refusal "widget_selection", { g with BLOCK_NEXT_FLIGHT_SEARCH := c.2 })
  else
    (.searched, g)

/-- The search_hotels_ui branch of _call_tool_request: availability check, then
the one-shot guard (reason widget_selection), then the provider search. -/
def search_hotels_ui (toolAvailable : Bool) (g : Gates) : SearchOutcome × Gates :=
  if !toolAvailable then
    (.unavailable "search_hotels_tool is not available on this server.", g)
  else
    let c := consumeIfTripped g.BLOCK_NEXT_HOTEL_SEARCH
    if c.1 then
      (.refusal "widget_selection", { g with BLOCK_NEXT_HOTEL_SEARCH := c.2 })
    else
      (.searched, g)

/-- The fetch_hotel_rates_ui branch of _call_tool_request: availability check,
search_result_id validation, then the one-shot guard (reason
widget_room_selection), then the provider fetch. -/
def fetch_hotel_rates_ui (toolAvailable : Bool) (g : Gates) (srr : Option String) :
    SearchOutcome × Gates :=
  if !toolAvailable then
    (.unavailable "fetch_hotel_rates_tool is not available on this server.", g)
  else
    match srr with
    | none => (.invalid "search_result_id (srr_...) is required", g)
    | some s =>
        if !pyStartsWith s "srr_" then
          (.invalid "Invalid search_result_id", g)
        else
          let c := consumeIfTripped g.BLOCK_NEXT_ROOM_RATES
          if c.1 then
            (.refusal "widget_room_selection", { g with BLOCK_NEXT_ROOM_RATES := c.2 })
          else
            (.searched, g)

/-- POST /widget/hotel/block_next: trips the hotel gate, always answers ok. -/
def widget_block_next_hotel_search (g : Gates) : Response × Gates :=
  (.plain "ok" 200, { g with BLOCK_NEXT_HOTEL_SEARCH := tripGate g.BLOCK_NEXT_HOTEL_SEARCH })

/-- POST /widget/flight/block_next: trips the flight gate, always answers ok. -/
def widget_block_next_flight_search (g : Gates) : Response × Gates :=
  (.plain "ok" 200, { g with BLOCK_NEXT_FLIGHT_SEARCH := tripGate g.BLOCK_NEXT_FLIGHT_SEARCH })

/-- POST /widget/room/block_next: trips the room-rates gate, always answers ok. -/
def widget_block_next_room_rates (g : Gates) : Response × Gates :=
  (.plain "ok" 200, { g with BLOCK_NEXT_ROOM_RATES := tripGate g.BLOCK_NEXT_ROOM_RATES })

/-- One atomic operation on a single gate latch, for reasoning about arbitrary
interleavings of widget trips and search-tool consumes on one kind. -/
inductive GateOp where
  | trip : GateOp
  | consume : GateOp
deriving DecidableEq, Repr

/-- One step of the latch under an operation: the new latch value and, for a
consume, the value it observed. -/
def gateStep (b : Bool) : GateOp → Bool × Option Bool
  | .trip => (tripGate b, none)
  | .consume =>
      let c := consumeIfTripped b
      (c.2, some c.1)

/-- Run a sequence of latch operations: the final latch value and the list of
values observed by the consumes, in order. -/
def gateRun (b : Bool) : List GateOp → Bool × List Bool
  | [] => (b, [])
  | op :: ops =>
      let s := gateStep b op
      let r := gateRun s.1 ops
      (r.1, s.2.toList ++ r.2)

end ServerF

namespace ServerF

/-! Stripe and Duffel collaborator views, the hotel session builder, and the
checkout routes. -/

/-- The Duffel quote as consumed by the session builder
(`quote.get("data")`: id, total_amount, total_currency). -/
structure Quote where
  quote_id : String
  total_amount : ℚ
  total_currency : String
deriving DecidableEq, Repr

/-- A Stripe Checkout Session creation request for a hotel, with the fields
Server_F.py fills in: minor-unit amount, currency, customer email, product
description, the metadata echoed back on retrieval, and the idempotency key. -/
structure HotelSessionReq where
  cents : ℤ
  currency : String
  customer_email : String
  description : String
  md_quote_id : String
  md_rate_id : String
  md_ctx_id : String
  idempotency_key : Option String
deriving DecidableEq, Repr

/-- A Stripe Checkout Session creation request for a flight, as filled in by
flight_checkout_link_route.  The source passes no idempotency_key parameter to
the payment provider on this path, recorded here as `none`. -/
structure FlightSessionReq where
  cents : ℤ
  currency : String
  customer_email : String
  description : String
  md_ctx_id : String
  md_offer_id : String
  md_amount : ℚ
  idempotency_key : Option String
deriving DecidableEq, Repr

/-- The payment provider's reply to a session creation request. -/
structure StripeOut where
  url : String
deriving DecidableEq, Repr

/-- The session builder `_create_checkout_session_from_ctx` of Server_F.py:
validate the stored intent, create a fresh Duffel quote for its rate_id to lock
the authoritative amount and currency, convert to minor units, and request a
Stripe session carrying the deterministic idempotency key
`checkout|` quote_id `|` email.  Returns the request sent together with the
provider's reply, so theorems can inspect the request.  `createQuote` and
`stripeCreate` are the two stateless collaborators. -/
def create_checkout_session_from_ctx
    (createQuote : String → Except String Quote)
    (stripeCreate : HotelSessionReq → Except String StripeOut)
    (ctx : HotelCtx) : Except String (HotelSessionReq × StripeOut) :=
  let rate_id := pyStrip ctx.rate_id
  let email := pyStrip ctx.email
  if rate_id = "" then .error "Missing rate_id"
  else if !emailOk email then .error "Invalid email"
  else
    match createQuote rate_id with
    | .error e => .error ("Quote creation failed: " ++ e)
    | .ok q =>
        let currency := pyToUpper q.total_currency
        if q.quote_id = "" ∨ currency = "" then
          .error "Duffel quote missing id/amount/currency"
        else if currency ∉ CURRENCY_WHITELIST then
          .error ("Unsupported currency: " ++ currency)
        else
          let cents := toMinorUnits q.total_amount currency
          let req : HotelSessionReq :=
            { cents := cents
              currency := currency
              customer_email := email
              description := pyOr ctx.desc ("Hotel rate: " ++ rate_id)
              md_quote_id := q.quote_id
              md_rate_id := rate_id
              md_ctx_id := ctx.ctx_id
              idempotency_key := some ("checkout|" ++ q.quote_id ++ "|" ++ email) }
          match stripeCreate req with
          | .error e => .error e
          | .ok s => .ok (req, s)

/-- POST /checkout (checkout_post_route): reads ctx_id from the JSON body,
answers 400 when missing, 404 when unknown, otherwise builds the session and
303-redirects; any exception becomes a 500.  The handler performs no TTL check
and never mutates the store. -/
def checkout_post_route
    (createQuote : String → Except String Quote)
    (stripeCreate : HotelSessionReq → Except String StripeOut)
    (store : List (String × HotelCtx))
    (body_ctx_id : Option String) : Response :=
  let ctx_id := pyStrip (body_ctx_id.getD "")
  if ctx_id = "" then .plain "Missing ctx_id" 400
  else
    match mapGet store ctx_id with
    | none => .plain "Unknown or expired ctx_id" 404
    | some ctx =>
        match create_checkout_session_from_ctx createQuote stripeCreate ctx with
        | .error e => .plain ("Checkout error: " ++ e) 500
        | .ok r => .redirect r.2.url 303

/-- Result of a checkout-link route: the response, the store afterwards, and
the session request sent to the payment provider, when one was built. -/
structure HotelLinkResult where
  resp : Response
  store : List (String × HotelCtx)
  req : Option HotelSessionReq
deriving DecidableEq, Repr

/-- GET /checkout/link (checkout_link_route): like the POST route but with the
lazy TTL purge: a present entry older than CHECKOUT_TTL_SECONDS is popped and
answered 410 before any session is built. -/
def checkout_link_route
    (createQuote : String → Except String Quote)
    (stripeCreate : HotelSessionReq → Except String StripeOut)
    (store : List (String × HotelCtx))
    (now ttl : ℚ)
    (q_ctx_id : Option String) : HotelLinkResult :=
  let ctx_id := pyStrip (q_ctx_id.getD "")
  if ctx_id = "" then ⟨.plain "Missing ctx_id" 400, store, none⟩
  else
    match mapGet store ctx_id with
    | none => ⟨.plain "Unknown or expired ctx_id" 404, store, none⟩
    | some ctx =>
        if now - ctx.created_at > ttl then
          ⟨.plain "Checkout link expired." 410, mapPop store ctx_id, none⟩
        else
          match create_checkout_session_from_ctx createQuote stripeCreate ctx with
          | .error e => ⟨.plain ("Checkout error: " ++ e) 500, store, none⟩
          | .ok r => ⟨.redirect r.2.url 303, store, some r.1⟩

/-- Result of the flight checkout-link route. -/
structure FlightLinkResult where
  resp : Response
  store : List (String × FlightCtx)
  req : Option FlightSessionReq
deriving DecidableEq, Repr

/-- GET /flight/checkout/link (flight_checkout_link_route): looks up the stored
flight intent, applies the lazy TTL purge, then creates the Stripe session
inline from the stored authoritative amount and currency.  No idempotency key
is passed on this path. -/
def flight_checkout_link_route
    (stripeCreate : FlightSessionReq → Except String StripeOut)
    (store : List (String × FlightCtx))
    (now ttl : ℚ)
    (q_ctx_id : Option String) : FlightLinkResult :=
  let ctx_id := pyStrip (q_ctx_id.getD "")
  if ctx_id = "" then ⟨.plain "Missing ctx_id" 400, store, none⟩
  else
    match mapGet store ctx_id with
    | none => ⟨.plain "Unknown or expired ctx_id" 404, store, none⟩
    | some ctx =>
        if now - ctx.created_at > ttl then
          ⟨.plain "Checkout link expired." 410, mapPop store ctx_id, none⟩
        else
          let req : FlightSessionReq :=
            { cents := toMinorUnits ctx.amount ctx.currency
              currency := ctx.currency
              customer_email := ctx.email
              description := "Offer " ++ ctx.offer_id
              md_ctx_id := ctx_id
              md_offer_id := ctx.offer_id
              md_amount := ctx.amount
              idempotency_key := none }
          match stripeCreate req with
          | .error e => ⟨.plain ("Checkout error: " ++ e) 500, store, some req⟩
          | .ok s => ⟨.redirect s.url 303, store, some req⟩

/-! Finalization: the two success callbacks and the finalize tool. -/

/-- A retrieved Stripe Checkout Session as the finalization paths read it:
payment status, settled currency and minor-unit total, the echoed metadata,
the customer email, and the payment intent id. -/
structure StripeSession where
  payment_status : String
  currency : String
  amount_total : ℤ
  md_quote_id : Option String := none
  md_rate_id : Option String := none
  md_ctx_id : Option String := none
  customer_email : Option String := none
  payment_intent_id : String
deriving DecidableEq, Repr

/-- The quote view read back by success_route
(`fetch_quote_details(quote_id).get("data")`). -/
structure QuoteView where
  total_amount : ℚ
  total_currency : String
deriving DecidableEq, Repr

/-- The Duffel hotel booking request built by success_route. -/
structure BookingReq where
  quote_id : String
  guests : List Guest
  email : String
  phone_number : String
  stay_special_requests : String
  payment_intent_id : String
deriving DecidableEq, Repr

/-- The travel provider's booking reply (`booking.get("data").get("id")`). -/
structure Booking where
  id : Option String
deriving DecidableEq, Repr

/-- Result of one delivery of a success callback: the response, both shared
maps afterwards, and the booking request when the travel-provider booking call
was made in this delivery. -/
structure SuccessResult where
  resp : Response
  store : List (String × HotelCtx)
  status : List (String × StatusEntry)
  bookAttempt : Option BookingReq
deriving DecidableEq, Repr

/-- GET /success (success_route): verify the payment is settled, re-fetch the
quote from the travel provider and reconcile the settled amount and currency
against it, pull guests and contact from the stored context, book with the
travel provider, evict the context, and record terminal paid status.  An
exception anywhere (session retrieval, booking call) reaches the outer handler
and becomes a 500 with no state change committed afterwards. -/
def success_route
    (fetchQuoteDetails : String → QuoteView)
    (createBooking : BookingReq → Except String Booking)
    (retrieve : String → Except String StripeSession)
    (store : List (String × HotelCtx))
    (status : List (String × StatusEntry))
    (q_session_id : String) : SuccessResult :=
  let session_id := pyStrip q_session_id
  if session_id = "" then ⟨.plain "Missing session_id" 400, store, status, none⟩
  else
    match retrieve session_id with
    | .error e => ⟨.plain ("Finalize error: " ++ e) 500, store, status, none⟩
    | .ok session =>
        if pyToLower session.payment_status ≠ "paid" then
          ⟨.plain "Payment not completed yet." 400, store, status, none⟩
        else
          match session.md_quote_id with
          | none =>
              ⟨.plain "Missing quote_id in session metadata." 400, store, status, none⟩
          | some quote_id =>
              let ctx_id := session.md_ctx_id.getD ""
              let q := fetchQuoteDetails quote_id
              let exp_ccy := pyToUpper q.total_currency
              let ses_ccy := pyToUpper session.currency
              let ses_amt := session.amount_total
              if verifySettled q.total_amount exp_ccy ses_amt ses_ccy = .Mismatch then
                ⟨.plain "Amount/currency mismatch against quote." 400, store, status, none⟩
              else
                let ctx := mapGet store ctx_id
                let guests := (ctx.map HotelCtx.guests).getD []
                let email :=
                  pyStrip (pyOr ((ctx.map HotelCtx.email).getD "")
                    (session.customer_email.getD ""))
                let phone := (ctx.map HotelCtx.phone_number).getD ""
                let stay := (ctx.map HotelCtx.stay_special_requests).getD ""
                if guests = [] ∨ email = "" then
                  ⟨.plain "Missing guests/email context to finalize booking." 400,
                    store, status, none⟩
                else
                  let req : BookingReq :=
                    ⟨quote_id, guests, email, phone, stay, session.payment_intent_id⟩
                  match createBooking req with
                  | .error e =>
                      ⟨.plain ("Finalize error: " ++ e) 500, store, status, some req⟩
                  | .ok _booking =>
                      let store2 := mapPop store ctx_id
                      let paid : ℚ :=
                        (ses_amt : ℚ) / (if ses_ccy ∈ ZERO_DECIMAL then 1 else 100)
                      let status2 :=
                        mapSet status ctx_id ⟨"hotel", "paid", some ses_ccy, some paid⟩
                      ⟨.html 200, store2, status2, some req⟩

/-- The Duffel flight booking request built by flight_success_route: the order
plus a balance payment carrying the stored amount and currency and the Stripe
payment intent id. -/
structure FlightBookingReq where
  offer_id : String
  passengers : List Passenger
  pay_amount : ℚ
  pay_currency : String
  payment_intent_id : String
  services : List String
deriving DecidableEq, Repr

/-- Result of one delivery of the flight success callback. -/
structure FlightSuccessResult where
  resp : Response
  store : List (String × FlightCtx)
  status : List (String × StatusEntry)
  bookAttempt : Option FlightBookingReq
deriving DecidableEq, Repr

/-- GET /flight/success (flight_success_route): verify the payment is settled,
look up the stored flight context by the ctx_id echoed in the session metadata
(a missing context is a 400), reconcile the settled amount and currency against
the stored authoritative amount, book the flight, evict the context, and record
terminal paid status. -/
def flight_success_route
    (createFlightBooking : FlightBookingReq → Except String Booking)
    (retrieve : String → Except String StripeSession)
    (store : List (String × FlightCtx))
    (status : List (String × StatusEntry))
    (q_session_id : String) : FlightSuccessResult :=
  let session_id := pyStrip q_session_id
  if session_id = "" then ⟨.plain "Missing session_id" 400, store, status, none⟩
  else
    match retrieve session_id with
    | .error e => ⟨.plain ("Finalize error: " ++ e) 500, store, status, none⟩
    | .ok session =>
        if pyToLower session.payment_status ≠ "paid" then
          ⟨.plain "Payment not completed yet." 400, store, status, none⟩
        else
          let ctx_id := session.md_ctx_id.getD ""
          match mapGet store ctx_id with
          | none => ⟨.plain "Missing/expired context." 400, store, status, none⟩
          | some ctx =>
              let ses_ccy := pyToUpper session.currency
              let ses_amt := session.amount_total
              if verifySettled ctx.amount ctx.currency ses_amt ses_ccy = .Mismatch then
                ⟨.plain "Amount/currency mismatch." 400, store, status, none⟩
              else
                let req : FlightBookingReq :=
                  ⟨ctx.offer_id, ctx.passengers, ctx.amount, ctx.currency,
                    session.payment_intent_id, ctx.services⟩
                match createFlightBooking req with
                | .error e =>
                    ⟨.plain ("Finalize error: " ++ e) 500, store, status, some req⟩
                | .ok _booking =>
                    let store2 := mapPop store ctx_id
                    let paid : ℚ :=
                      (ses_amt : ℚ) / (if ses_ccy ∈ ZERO_DECIMAL then 1 else 100)
                    let status2 :=
                      mapSet status ctx_id ⟨"flight", "paid", some ses_ccy, some paid⟩
                    ⟨.html 200, store2, status2, some req⟩

/-- Caller arguments of the finalize_hotel_checkout tool. -/
structure FinalizeArgs where
  session_id : String
  rate_id : String := ""
  guests : List Guest := []
  email : String := ""
  phone_number : String := ""
  stay_special_requests : String := ""
  hotel_name : String := ""
  room_name : String := ""
  check_in : String := ""
  check_out : String := ""
deriving DecidableEq, Repr

/-- Outcome of the finalize_hotel_checkout tool. -/
inductive FinalizeOutcome where
  | err (msg : String) : FinalizeOutcome
  | missing (fields : List String) (amount : ℤ) (currency : String) : FinalizeOutcome
  | booked (booking_reference : String) (booking_id : String)
      (booking_status : String) (hotel_name : String) (room_type : String)
      (amount : ℤ) (currency : String) : FinalizeOutcome
deriving DecidableEq, Repr

/-- The finalize_hotel_checkout branch of _call_tool_request: retrieve the
session, require settled payment, gather rate_id, guests and email from the
arguments (falling back to session metadata and customer email), and if nothing
is missing construct the booking record locally from the payment intent id.
No travel-provider price is fetched and the settled amount is not reconciled on
this path; the settled amount and currency are only echoed into the summary. -/
def finalize_hotel_checkout
    (retrieve : String → Except String StripeSession)
    (args : FinalizeArgs) : FinalizeOutcome :=
  let session_id := pyStrip args.session_id
  if session_id = "" then .err "session_id is required"
  else
    match retrieve session_id with
    | .error e => .err ("Stripe session error: " ++ e)
    | .ok session =>
        if pyToLower session.payment_status ≠ "paid" then
          .err "Payment not completed yet."
        else
          let pi_id := session.payment_intent_id
          let rate_id := pyStrip (pyOr args.rate_id (session.md_rate_id.getD ""))
          let guests := args.guests
          let email := pyStrip (pyOr args.email (session.customer_email.getD ""))
          let missing :=
            (if rate_id = "" then ["rate_id"] else []) ++
            (if guests = [] then ["guests"] else []) ++
            (if email = "" then ["email"] else [])
          if missing ≠ [] then
            .missing missing session.amount_total (pyToUpper session.currency)
          else
            .booked ("BK-" ++ pyLast 8 pi_id) ("bk_" ++ pyLast 10 pi_id)
              "confirmed" (pyOr args.hotel_name "Hotel") (pyOr args.room_name "Room")
              session.amount_total (pyToUpper session.currency)

/-! The start_flight_checkout branch: re-confirm the base fare from the travel
provider, price the selected seats against a freshly fetched seat map, and
store the reconciled intent. -/

/-- The flight offer as read back from `fetch_flight_offer(offer_id)`. -/
structure OfferData where
  total_amount : ℚ
  total_currency : String
deriving DecidableEq, Repr

/-- One seat of the seat map fetched from the travel provider, as priced by the
seat-cost computation: the ancillary service id and its price. -/
structure SeatOption where
  service_id : String
  price : ℚ
deriving DecidableEq, Repr

/-- Modelled from the spec: `calculate_seat_costs` lives in
src/duffel_client/endpoints/flights, which is not part of the provided sources.
Per the spec it computes the seat/ancillary total for the caller-specified seat
selection against the freshly fetched seat map: the sum, over the selected
service ids, of the price the fetched map assigns them. -/
def calculate_seat_costs (selected : List String) (seatMap : List SeatOption) : ℚ :=
  (selected.map (fun sid =>
    ((seatMap.find? (fun s => s.service_id = sid)).map SeatOption.price).getD 0)).sum

/-- Python `round(x, 2)` followed by two-decimal formatting, on exact values.
The source computes the flight total with binary floating point and rounds
half-to-even; on totals exactly representable with two decimals, such as the
whole-cent amounts in the claims, both computations are exact and agree with
this rational rounding. -/
def pyRound2 (q : ℚ) : ℚ :=
  ((round (q * 100) : ℤ) : ℚ) / 100

/-- Caller arguments of start_flight_checkout. -/
structure StartFlightArgs where
  offer_id : String := ""
  passengers : List Passenger := []
  email : String := ""
  phone_number : String := ""
  seat_preference : String := ""
  selected_seats : List String := []
deriving DecidableEq, Repr

/-- Outcome of start_flight_checkout. -/
inductive StartFlightOutcome where
  | err (msg : String) : StartFlightOutcome
  | seatOptions (pref : String) : StartFlightOutcome
  | checkoutReady (ctx_id : String) : StartFlightOutcome
deriving DecidableEq, Repr

/-- Result of start_flight_checkout: the outcome and both shared maps. -/
structure StartFlightResult where
  outcome : StartFlightOutcome
  store : List (String × FlightCtx)
  status : List (String × StatusEntry)
deriving DecidableEq, Repr

/-- The start_flight_checkout branch of _call_tool_request.  After validation it
re-confirms the base fare and currency from the travel provider via
`fetch_flight_offer` (never trusting a client-shown price), and when seats are
selected it fetches the seat map afresh via `get_seat_maps` and prices the
selection against it; the stored authoritative total is the rounded sum of the
two.  `newCtxId` stands for the generated uuid4 hex and `now` for time(). -/
def start_flight_checkout
    (fetchOffer : String → Except String OfferData)
    (getSeatMaps : String → List SeatOption)
    (args : StartFlightArgs)
    (newCtxId : String) (now : ℚ)
    (store : List (String × FlightCtx))
    (status : List (String × StatusEntry)) : StartFlightResult :=
  let offer_id := pyStrip args.offer_id
  let email := pyStrip args.email
  let phone := pyStrip args.phone_number
  let seat_pref := pyStrip (pyToLower args.seat_preference)
  if seat_pref ∉ ["aisle", "middle", "window", "none"] then
    ⟨.err "seat_preference must be one of: aisle, middle, window, none", store, status⟩
  else
    let include_seat_map := seat_pref ∈ ["aisle", "middle", "window"]
    let missingBasics :=
      offer_id = "" ∨ args.passengers = [] ∨
      (∃ p ∈ args.passengers,
        p.given_name = "" ∨ p.family_name = "" ∨ p.born_on = "") ∨
      email = "" ∨ emailOk email = false ∨ phone = ""
    if missingBasics then
      ⟨.err "Missing/invalid fields", store, status⟩
    else
      match fetchOffer offer_id with
      | .error e => ⟨.err ("Failed to fetch offer: " ++ e), store, status⟩
      | .ok offer =>
          let base_amount := offer.total_amount
          let currency := pyToUpper offer.total_currency
          if currency = "" then
            ⟨.err "Could not determine base price/currency from offer.", store, status⟩
          else if include_seat_map ∧ args.selected_seats = [] then
            ⟨.seatOptions seat_pref, store, status⟩
          else
            let seat_total :=
              if args.selected_seats ≠ [] then
                calculate_seat_costs args.selected_seats (getSeatMaps offer_id)
              else 0
            let services := args.selected_seats
            let amount := pyRound2 (base_amount + seat_total)
            let pax := args.passengers.map (fun p =>
              { p with
                email := some (p.email.getD email)
                phone_number := some (p.phone_number.getD phone) })
            let ctx : FlightCtx :=
              { ctx_id := newCtxId
                offer_id := offer_id
                passengers := pax
                email := email
                phone_number := phone
                currency := currency
                base_amount := base_amount
                seat_total := seat_total
                amount := amount
                services := services
                created_at := now }
            let store2 := mapSet store newCtxId ctx
            let status2 := mapSet status newCtxId
              ⟨"flight", "pending", some currency, some amount⟩
            ⟨.checkoutReady newCtxId, store2, status2⟩

end ServerF

namespace ServerF

/-! Small facts about the map model, shared by the claim theorems. -/

theorem mapGet_mapSet_self {α : Type} (m : List (String × α)) (k : String) (v : α) :
    mapGet (mapSet m k v) k = some v := by
  simp [mapGet, mapSet]

theorem mapGet_mapPop_self {α : Type} (m : List (String × α)) (k : String) :
    mapGet (mapPop m k) k = none := by
  induction m with
  | nil => simp [mapGet, mapPop]
  | cons p rest ih =>
      by_cases h : p.1 = k
      · rw [show mapPop (p :: rest) k = mapPop rest k from by
          simp [mapPop, List.filter_cons, h]]
        exact ih
      · rw [show mapPop (p :: rest) k = p :: mapPop rest k from by
          simp [mapPop, List.filter_cons, h]]
        rw [show mapGet (p :: mapPop rest k) k = mapGet (mapPop rest k) k from by
          simp [mapGet, List.find?_cons, h]]
        exact ih

theorem verifySettled_ok_iff (amt : ℚ) (ccy : String) (s : ℤ) :
    verifySettled amt ccy s ccy = .Ok ↔ s = toMinorUnits amt ccy := by
  unfold verifySettled
  split
  next h => simp [h.2]
  next h =>
    simp
    intro hs
    exact h ⟨rfl, hs⟩

theorem gateRun_count_le (ops : List GateOp) :
    ∀ b : Bool,
      (gateRun b ops).2.count true + (gateRun b ops).1.toNat ≤
        ops.count .trip + b.toNat := by
  induction ops with
  | nil => intro b; simp [gateRun]
  | cons op rest ih =>
      intro b
      cases op with
      | trip =>
          have h := ih true
          simp [gateRun, gateStep, tripGate, List.count_cons] at *
          omega
      | consume =>
          have h := ih false
          simp [gateRun, gateStep, consumeIfTripped, List.count_cons,
            List.count_append] at *
          cases b <;> simp_all
          all_goals omega

theorem gateRun_no_lost_trip (ops : List GateOp) :
    ∀ b : Bool, (b = true ∨ 1 ≤ ops.count .trip) →
      1 ≤ (gateRun b ops).2.count true ∨ (gateRun b ops).1 = true := by
  induction ops with
  | nil =>
      intro b hb
      rcases hb with hb | hb
      · right; simpa [gateRun] using hb
      · simp [List.count_nil] at hb
  | cons op rest ih =>
      intro b hb
      cases op with
      | trip =>
          have h := ih true (Or.inl rfl)
          simpa [gateRun, gateStep, tripGate] using h
      | consume =>
          cases b with
          | true =>
              left
              simp [gateRun, gateStep, consumeIfTripped, List.count_cons]
          | false =>
              have hro : 1 ≤ rest.count GateOp.trip := by
                rcases hb with hb | hb
                · exact absurd hb (by simp)
                · simpa [List.count_cons] using hb
              have h := ih false (Or.inr hro)
              simpa [gateRun, gateStep, consumeIfTripped] using h

end ServerF

namespace ServerF

/-- C2: the settled-amount verification converts the authoritative amount to
minor units by multiplying by 100 for ordinary currencies and by 1 for
zero-decimal currencies and compares exact integers; for authoritative
100.00 AUD a settled 10000 minor units verifies Ok and a settled 9999
verifies Mismatch. -/
theorem C2_verify_settled_minor_units (amt : ℚ) (ccy : String) (sesAmt : ℤ) :
    (ccy ∉ ZERO_DECIMAL →
      (verifySettled amt ccy sesAmt ccy = .Ok ↔ sesAmt = pyIntTrunc (amt * 100)))
    ∧ (ccy ∈ ZERO_DECIMAL →
      (verifySettled amt ccy sesAmt ccy = .Ok ↔ sesAmt = pyIntTrunc (amt * 1)))
    ∧ verifySettled 100 "AUD" 10000 "AUD" = .Ok
    ∧ verifySettled 100 "AUD" 9999 "AUD" = .Mismatch := by
  refine ⟨fun h => ?_, fun h => ?_, ?_, ?_⟩
  · rw [verifySettled_ok_iff]
    simp [toMinorUnits, h]
  · rw [verifySettled_ok_iff]
    simp [toMinorUnits, h]
  · simp [verifySettled, toMinorUnits, pyIntTrunc, ZERO_DECIMAL]
    norm_num
  · simp [verifySettled, toMinorUnits, pyIntTrunc, ZERO_DECIMAL]
    norm_num

/-- C7: when a one-shot latch is set, the next corresponding search call
(search_flights_ui, search_hotels_ui or fetch_hotel_rates_ui, here on a valid
request) returns the structured refusal instead of running the provider
search, resets the latch to false, and the call after that runs the search
normally. -/
theorem C7_one_shot_gate_refuses_once (g : Gates) (srr : String)
    (hf : g.BLOCK_NEXT_FLIGHT_SEARCH = true)
    (hh : g.BLOCK_NEXT_HOTEL_SEARCH = true)
    (hr : g.BLOCK_NEXT_ROOM_RATES = true)
    (hs : pyStartsWith srr "srr_" = true) :
    (search_flights_ui g).1 = .refusal "widget_selection"
    ∧ (search_flights_ui g).2.BLOCK_NEXT_FLIGHT_SEARCH = false
    ∧ (search_flights_ui (search_flights_ui g).2).1 = .searched
    ∧ (search_hotels_ui true g).1 = .refusal "widget_selection"
    ∧ (search_hotels_ui true g).2.BLOCK_NEXT_HOTEL_SEARCH = false
    ∧ (search_hotels_ui true (search_hotels_ui true g).2).1 = .searched
    ∧ (fetch_hotel_rates_ui true g (some srr)).1 = .refusal "widget_room_selection"
    ∧ (fetch_hotel_rates_ui true g (some srr)).2.BLOCK_NEXT_ROOM_RATES = false
    ∧ (fetch_hotel_rates_ui true (fetch_hotel_rates_ui true g (some srr)).2
        (some srr)).1 = .searched := by
  obtain ⟨a, b, c⟩ := g
  simp only [Gates.BLOCK_NEXT_FLIGHT_SEARCH] at hf
  simp only [Gates.BLOCK_NEXT_HOTEL_SEARCH] at hh
  simp only [Gates.BLOCK_NEXT_ROOM_RATES] at hr
  subst hf hh hr
  refine ⟨?_, ?_, ?_, ?_, ?_, ?_, ?_, ?_, ?_⟩ <;>
    simp [search_flights_ui, search_hotels_ui, fetch_hotel_rates_ui,
      consumeIfTripped, hs]

/-- C7 witness: the latched state with a valid search_result_id. -/
theorem C7_one_shot_gate_refuses_once_witness :
    (search_flights_ui ⟨true, true, true⟩).1 = .refusal "widget_selection"
    ∧ (search_flights_ui ⟨true, true, true⟩).2.BLOCK_NEXT_FLIGHT_SEARCH = false
    ∧ (search_flights_ui (search_flights_ui ⟨true, true, true⟩).2).1 = .searched
    ∧ (search_hotels_ui true ⟨true, true, true⟩).1 = .refusal "widget_selection"
    ∧ (search_hotels_ui true ⟨true, true, true⟩).2.BLOCK_NEXT_HOTEL_SEARCH = false
    ∧ (search_hotels_ui true (search_hotels_ui true ⟨true, true, true⟩).2).1 = .searched
    ∧ (fetch_hotel_rates_ui true ⟨true, true, true⟩ (some "srr_1")).1 =
        .refusal "widget_room_selection"
    ∧ (fetch_hotel_rates_ui true ⟨true, true, true⟩
        (some "srr_1")).2.BLOCK_NEXT_ROOM_RATES = false
    ∧ (fetch_hotel_rates_ui true (fetch_hotel_rates_ui true ⟨true, true, true⟩
        (some "srr_1")).2 (some "srr_1")).1 = .searched :=
  C7_one_shot_gate_refuses_once ⟨true, true, true⟩ "srr_1" rfl rfl rfl (by decide)

/-- Inversion for the session builder: a successful build means the quote was
created for the stored rate_id and the request carried the deterministic key. -/
theorem create_session_ok_key
    (cq : String → Except String Quote)
    (sc : HotelSessionReq → Except String StripeOut)
    (ctx : HotelCtx) (r : HotelSessionReq × StripeOut)
    (h : create_checkout_session_from_ctx cq sc ctx = .ok r) :
    ∃ q, cq (pyStrip ctx.rate_id) = .ok q ∧
      r.1.idempotency_key =
        some ("checkout|" ++ q.quote_id ++ "|" ++ pyStrip ctx.email) := by
  simp only [create_checkout_session_from_ctx] at h
  repeat' split at h
  all_goals try simp at h
  refine ⟨_, by assumption, ?_⟩
  rw [← h]

/-- C4 (amended): hotel session creation derives its idempotency key
deterministically as checkout|quote_id|email, so two session builds over
intents with the same (stripped) rate_id and email — the quote for a rate
being a function of the rate — carry the same key; flight session creation, by
contrast, passes no idempotency key (see the counterexample). -/
theorem C4_hotel_idempotency_key_deterministic
    (cq : String → Except String Quote)
    (sc : HotelSessionReq → Except String StripeOut)
    (c1 c2 : HotelCtx) (r1 r2 : HotelSessionReq × StripeOut)
    (hrate : pyStrip c1.rate_id = pyStrip c2.rate_id)
    (hemail : pyStrip c1.email = pyStrip c2.email)
    (h1 : create_checkout_session_from_ctx cq sc c1 = .ok r1)
    (h2 : create_checkout_session_from_ctx cq sc c2 = .ok r2) :
    r1.1.idempotency_key = r2.1.idempotency_key
    ∧ ∀ q, cq (pyStrip c1.rate_id) = .ok q →
        r1.1.idempotency_key =
          some ("checkout|" ++ q.quote_id ++ "|" ++ pyStrip c1.email) := by
  obtain ⟨q1, hq1, hk1⟩ := create_session_ok_key cq sc c1 r1 h1
  obtain ⟨q2, hq2, hk2⟩ := create_session_ok_key cq sc c2 r2 h2
  have hq : q1 = q2 := by
    rw [hrate] at hq1
    exact Except.ok.inj (hq1.symm.trans hq2)
  constructor
  · rw [hk1, hk2, hq, hemail]
  · intro q hq'
    have hqq : q1 = q := Except.ok.inj (hq1.symm.trans hq')
    rw [hk1, hqq]

/-- C4 witness: two hotel intents sharing rate rat_1 and email yield the same
deterministic idempotency key. -/
theorem C4_hotel_idempotency_key_deterministic_witness :
    ((⟨toMinorUnits 100 (pyToUpper "AUD"), pyToUpper "AUD", pyStrip "a@b.co",
        pyOr "d" ("Hotel rate: " ++ pyStrip "rat_1"), "quo_1", pyStrip "rat_1", "c1",
        some ("checkout|" ++ "quo_1" ++ "|" ++ pyStrip "a@b.co")⟩,
      ⟨"https://u"⟩) : HotelSessionReq × StripeOut).1.idempotency_key =
    ((⟨toMinorUnits 100 (pyToUpper "AUD"), pyToUpper "AUD", pyStrip "a@b.co",
        pyOr "d" ("Hotel rate: " ++ pyStrip "rat_1"), "quo_1", pyStrip "rat_1", "c2",
        some ("checkout|" ++ "quo_1" ++ "|" ++ pyStrip "a@b.co")⟩,
      ⟨"https://u"⟩) : HotelSessionReq × StripeOut).1.idempotency_key :=
  (C4_hotel_idempotency_key_deterministic
    (fun _ => .ok ⟨"quo_1", 100, "AUD"⟩) (fun _ => .ok ⟨"https://u"⟩)
    ⟨"c1", "rat_1", "a@b.co", [⟨"A", "B"⟩], "", "", "", "H", "R", "d", 0⟩
    ⟨"c2", "rat_1", "a@b.co", [⟨"A", "B"⟩], "", "", "", "H", "R", "d", 5⟩
    _ _ rfl rfl rfl rfl).1

/-- C4 counterexample: the flight session creation path sends its Stripe
request with no idempotency key at all, so the claim does not hold for flight
session creation. -/
theorem C4_counterexample_flight_no_idempotency_key :
    ((flight_checkout_link_route (fun _ => .ok ⟨"https://pay.example/f1"⟩)
        [("f1", ⟨"f1", "off_1", [⟨"A", "B", "1990-01-01", some "a@b.co", some "+61"⟩],
          "a@b.co", "+61", "AUD", 250, 35, 285, ["ase_1"], 0⟩)]
        10 900 (some "f1")).req).map FlightSessionReq.idempotency_key
      = some none := by
  have hfresh : ¬ ((900 : ℚ) < 10) := by norm_num
  simp [flight_checkout_link_route, mapGet, pyStrip, List.find?, hfresh]

/-- C5: a checkout-link access within the TTL builds the payment session from
the exact stored intent and leaves the store unchanged; an access after the
TTL has elapsed deletes the entry, reports 410, and a subsequent lookup finds
nothing.  Stated for both the hotel and the flight context stores. -/
theorem C5_ttl_context_store_take_if_fresh
    (cq : String → Except String Quote)
    (sc : HotelSessionReq → Except String StripeOut)
    (fsc : FlightSessionReq → Except String StripeOut)
    (hstore : List (String × HotelCtx)) (fstore : List (String × FlightCtx))
    (now ttl : ℚ) (id : String) (hc : HotelCtx) (fc : FlightCtx)
    (hid : pyStrip id = id) (hid2 : id ≠ "")
    (hh : mapGet hstore id = some hc)
    (hf : mapGet fstore id = some fc) :
    (now - hc.created_at ≤ ttl →
      (checkout_link_route cq sc hstore now ttl (some id)).store = hstore
      ∧ ∀ r, create_checkout_session_from_ctx cq sc hc = .ok r →
          checkout_link_route cq sc hstore now ttl (some id) =
            ⟨.redirect r.2.url 303, hstore, some r.1⟩)
    ∧ (now - hc.created_at > ttl →
        (checkout_link_route cq sc hstore now ttl (some id)).resp.code = 410
        ∧ mapGet (checkout_link_route cq sc hstore now ttl (some id)).store id = none)
    ∧ (now - fc.created_at ≤ ttl →
        (flight_checkout_link_route fsc fstore now ttl (some id)).store = fstore
        ∧ (flight_checkout_link_route fsc fstore now ttl (some id)).req =
            some ⟨toMinorUnits fc.amount fc.currency, fc.currency, fc.email,
              "Offer " ++ fc.offer_id, id, fc.offer_id, fc.amount, none⟩)
    ∧ (now - fc.created_at > ttl →
        (flight_checkout_link_route fsc fstore now ttl (some id)).resp.code = 410
        ∧ mapGet (flight_checkout_link_route fsc fstore now ttl (some id)).store id
            = none) := by
  refine ⟨fun hfr => ?_, fun hex => ?_, fun hfr => ?_, fun hex => ?_⟩
  · have hno : ¬ (now - hc.created_at > ttl) := not_lt.mpr hfr
    constructor
    · rcases hcs : create_checkout_session_from_ctx cq sc hc with e | r <;>
        simp [checkout_link_route, hid, hid2, hh, hno, hcs]
    · intro r hr
      simp [checkout_link_route, hid, hid2, hh, hno, hr]
  · constructor
    · simp [checkout_link_route, hid, hid2, hh, hex, Response.code]
    · simp [checkout_link_route, hid, hid2, hh, hex, mapGet_mapPop_self]
  · have hno : ¬ (now - fc.created_at > ttl) := not_lt.mpr hfr
    constructor
    · rcases hcs : fsc ⟨toMinorUnits fc.amount fc.currency, fc.currency, fc.email,
        "Offer " ++ fc.offer_id, id, fc.offer_id, fc.amount, none⟩ with e | s <;>
        simp [flight_checkout_link_route, hid, hid2, hf, hno, hcs]
    · rcases hcs : fsc ⟨toMinorUnits fc.amount fc.currency, fc.currency, fc.email,
        "Offer " ++ fc.offer_id, id, fc.offer_id, fc.amount, none⟩ with e | s <;>
        simp [flight_checkout_link_route, hid, hid2, hf, hno, hcs]
  · constructor
    · simp [flight_checkout_link_route, hid, hid2, hf, hex, Response.code]
    · simp [flight_checkout_link_route, hid, hid2, hf, hex, mapGet_mapPop_self]

/-- C5 witness: a stored hotel and flight intent under key c5, accessed at a
concrete time against the default 900 second TTL. -/
theorem C5_ttl_context_store_take_if_fresh_witness :
    ((1000 : ℚ) - 0 ≤ 900 →
      (checkout_link_route (fun _ => .ok ⟨"quo_1", 100, "AUD"⟩)
          (fun _ => .ok ⟨"https://u"⟩)
          [("c5", ⟨"c5", "rat_1", "a@b.co", [⟨"A", "B"⟩], "", "", "", "H", "R", "d", 0⟩)]
          1000 900 (some "c5")).store =
        [("c5", ⟨"c5", "rat_1", "a@b.co", [⟨"A", "B"⟩], "", "", "", "H", "R", "d", 0⟩)]
      ∧ ∀ r, create_checkout_session_from_ctx (fun _ => .ok ⟨"quo_1", 100, "AUD"⟩)
            (fun _ => .ok ⟨"https://u"⟩)
            ⟨"c5", "rat_1", "a@b.co", [⟨"A", "B"⟩], "", "", "", "H", "R", "d", 0⟩ = .ok r →
          checkout_link_route (fun _ => .ok ⟨"quo_1", 100, "AUD"⟩)
              (fun _ => .ok ⟨"https://u"⟩)
              [("c5", ⟨"c5", "rat_1", "a@b.co", [⟨"A", "B"⟩], "", "", "", "H", "R", "d", 0⟩)]
              1000 900 (some "c5") =
            ⟨.redirect r.2.url 303,
              [("c5", ⟨"c5", "rat_1", "a@b.co", [⟨"A", "B"⟩], "", "", "", "H", "R", "d", 0⟩)],
              some r.1⟩)
    ∧ ((1000 : ℚ) - 0 > 900 →
        (checkout_link_route (fun _ => .ok ⟨"quo_1", 100, "AUD"⟩)
            (fun _ => .ok ⟨"https://u"⟩)
            [("c5", ⟨"c5", "rat_1", "a@b.co", [⟨"A", "B"⟩], "", "", "", "H", "R", "d", 0⟩)]
            1000 900 (some "c5")).resp.code = 410
        ∧ mapGet (checkout_link_route (fun _ => .ok ⟨"quo_1", 100, "AUD"⟩)
            (fun _ => .ok ⟨"https://u"⟩)
            [("c5", ⟨"c5", "rat_1", "a@b.co", [⟨"A", "B"⟩], "", "", "", "H", "R", "d", 0⟩)]
            1000 900 (some "c5")).store "c5" = none)
    ∧ ((1000 : ℚ) - 0 ≤ 900 →
        (flight_checkout_link_route (fun _ => .ok ⟨"https://u"⟩)
            [("c5", ⟨"c5", "off_1", [⟨"A", "B", "1990-01-01", none, none⟩],
              "a@b.co", "+61", "AUD", 250, 35, 285, ["ase_1"], 0⟩)]
            1000 900 (some "c5")).store =
          [("c5", ⟨"c5", "off_1", [⟨"A", "B", "1990-01-01", none, none⟩],
            "a@b.co", "+61", "AUD", 250, 35, 285, ["ase_1"], 0⟩)]
        ∧ (flight_checkout_link_route (fun _ => .ok ⟨"https://u"⟩)
            [("c5", ⟨"c5", "off_1", [⟨"A", "B", "1990-01-01", none, none⟩],
              "a@b.co", "+61", "AUD", 250, 35, 285, ["ase_1"], 0⟩)]
            1000 900 (some "c5")).req =
            some ⟨toMinorUnits 285 "AUD", "AUD", "a@b.co", "Offer off_1", "c5",
              "off_1", 285, none⟩)
    ∧ ((1000 : ℚ) - 0 > 900 →
        (flight_checkout_link_route (fun _ => .ok ⟨"https://u"⟩)
            [("c5", ⟨"c5", "off_1", [⟨"A", "B", "1990-01-01", none, none⟩],
              "a@b.co", "+61", "AUD", 250, 35, 285, ["ase_1"], 0⟩)]
            1000 900 (some "c5")).resp.code = 410
        ∧ mapGet (flight_checkout_link_route (fun _ => .ok ⟨"https://u"⟩)
            [("c5", ⟨"c5", "off_1", [⟨"A", "B", "1990-01-01", none, none⟩],
              "a@b.co", "+61", "AUD", 250, 35, 285, ["ase_1"], 0⟩)]
            1000 900 (some "c5")).store "c5" = none) :=
  C5_ttl_context_store_take_if_fresh
    (fun _ => .ok ⟨"quo_1", 100, "AUD"⟩) (fun _ => .ok ⟨"https://u"⟩)
    (fun _ => .ok ⟨"https://u"⟩)
    [("c5", ⟨"c5", "rat_1", "a@b.co", [⟨"A", "B"⟩], "", "", "", "H", "R", "d", 0⟩)]
    [("c5", ⟨"c5", "off_1", [⟨"A", "B", "1990-01-01", none, none⟩],
      "a@b.co", "+61", "AUD", 250, 35, 285, ["ase_1"], 0⟩)]
    1000 900 "c5"
    ⟨"c5", "rat_1", "a@b.co", [⟨"A", "B"⟩], "", "", "", "H", "R", "d", 0⟩
    ⟨"c5", "off_1", [⟨"A", "B", "1990-01-01", none, none⟩],
      "a@b.co", "+61", "AUD", 250, 35, 285, ["ase_1"], 0⟩
    (by decide) (by decide)
    (by simp [mapGet, List.find?]) (by simp [mapGet, List.find?])

/-- C6 (amended): POST /checkout answers 303 on a known context whose session
builds, 400 on a missing ctx_id and 404 on an unknown one; it performs no TTL
check, so it never answers 410 — an expired context still present in the store
is redirected normally (see the counterexample). -/
theorem C6_post_checkout_status_codes
    (cq : String → Except String Quote)
    (sc : HotelSessionReq → Except String StripeOut)
    (store : List (String × HotelCtx)) (body : Option String) :
    (pyStrip (body.getD "") = "" →
      checkout_post_route cq sc store body = .plain "Missing ctx_id" 400)
    ∧ (mapGet store (pyStrip (body.getD "")) = none → pyStrip (body.getD "") ≠ "" →
        checkout_post_route cq sc store body = .plain "Unknown or expired ctx_id" 404)
    ∧ (∀ ctx r, pyStrip (body.getD "") ≠ "" →
        mapGet store (pyStrip (body.getD "")) = some ctx →
        create_checkout_session_from_ctx cq sc ctx = .ok r →
        checkout_post_route cq sc store body = .redirect r.2.url 303)
    ∧ (checkout_post_route cq sc store body).code ≠ 410 := by
  refine ⟨fun h0 => ?_, fun hm hne => ?_, fun ctx r hne hm hr => ?_, ?_⟩
  · simp [checkout_post_route, h0]
  · simp [checkout_post_route, hm, hne]
  · simp [checkout_post_route, hm, hne, hr]
  · by_cases h0 : pyStrip (body.getD "") = ""
    · simp [checkout_post_route, h0, Response.code]
    · rcases hm : mapGet store (pyStrip (body.getD "")) with _ | ctx
      · simp [checkout_post_route, h0, hm, Response.code]
      · rcases hr : create_checkout_session_from_ctx cq sc ctx with e | r
        · simp [checkout_post_route, h0, hm, hr, Response.code]
        · simp [checkout_post_route, h0, hm, hr, Response.code]

/-- C6 counterexample: a context created at time 0 and accessed long past the
900 second TTL is still redirected with 303 by POST /checkout — there is no
410 on this route. -/
theorem C6_counterexample_post_expired_not_410 :
    (1000000 : ℚ) - 0 > 900
    ∧ checkout_post_route (fun _ => .ok ⟨"quo_1", 100, "AUD"⟩)
        (fun _ => .ok ⟨"https://pay.example/s1"⟩)
        [("c6", ⟨"c6", "rat_1", "a@b.co", [⟨"A", "B"⟩], "", "", "", "H", "R", "d", 0⟩)]
        (some "c6")
      = .redirect "https://pay.example/s1" 303 := by
  constructor
  · norm_num
  · simp [checkout_post_route, mapGet, List.find?, pyStrip,
      create_checkout_session_from_ctx, emailOk, isEmailChar, pyOr, pyToUpper,
      CURRENCY_WHITELIST]

/-- C8: in any interleaving of atomic trips and consumes of one gate latch
starting from the clear initial state, the consumes observe the latch as
tripped at most once per trip (no double consumption), and when at least one
trip occurred, either some consume observed it or the latch is still set (no
lost trip). -/
theorem C8_gate_trip_consume_race_free (ops : List GateOp) :
    (gateRun false ops).2.count true ≤ ops.count .trip
    ∧ (1 ≤ ops.count .trip →
        1 ≤ (gateRun false ops).2.count true ∨ (gateRun false ops).1 = true) := by
  constructor
  · have h := gateRun_count_le ops false
    simp only [Bool.toNat_false, Nat.add_zero] at h
    omega
  · intro h1
    exact gateRun_no_lost_trip ops false (Or.inr h1)

end ServerF

namespace ServerF

theorem eq_ok_of_ne_mismatch (v : VerifyResult) (h : v ≠ .Mismatch) : v = .Ok := by
  cases v
  · rfl
  · exact absurd rfl h

/-- C1 (amended): the two success callbacks reconcile the settled payment
before any travel-provider booking call: GET /success books only when the
settled amount and currency verify against the quote re-fetched from the
travel provider at finalization time, and GET /flight/success books only when
they verify against the authoritative amount stored server-side at checkout
creation.  The finalize_hotel_checkout tool performs no such reconciliation
(see the counterexample). -/
theorem C1_success_routes_reconcile_before_booking
    (fq : String → QuoteView)
    (cb : BookingReq → Except String Booking)
    (cfb : FlightBookingReq → Except String Booking)
    (session fsession : StripeSession)
    (store : List (String × HotelCtx)) (fstore : List (String × FlightCtx))
    (status fstatus : List (String × StatusEntry))
    (sid fsid : String) :
    (∀ req, (success_route fq cb (fun _ => .ok session) store status sid).bookAttempt
        = some req →
      session.md_quote_id = some req.quote_id
      ∧ verifySettled (fq req.quote_id).total_amount
          (pyToUpper (fq req.quote_id).total_currency)
          session.amount_total (pyToUpper session.currency) = .Ok)
    ∧ (∀ freq c, mapGet fstore (fsession.md_ctx_id.getD "") = some c →
        (flight_success_route cfb (fun _ => .ok fsession) fstore fstatus
            fsid).bookAttempt = some freq →
        freq.pay_amount = c.amount ∧ freq.pay_currency = c.currency
        ∧ verifySettled c.amount c.currency fsession.amount_total
            (pyToUpper fsession.currency) = .Ok) := by
  constructor
  · intro req h
    simp only [success_route] at h
    repeat' split at h
    all_goals simp at h
    all_goals subst h
    all_goals
      refine ⟨by simp; assumption, eq_ok_of_ne_mismatch _ (by simp; assumption)⟩
  · intro freq c hc h
    simp only [flight_success_route] at h
    repeat' split at h
    all_goals simp at h
    all_goals subst h
    all_goals simp_all
    all_goals exact eq_ok_of_ne_mismatch _ (by assumption)

/-- C1 witness: a hotel and a flight happy-path delivery, with concrete quote,
context and settled session, on which a booking is attempted. -/
theorem C1_success_routes_reconcile_before_booking_witness :
    (∀ req, (success_route (fun _ => ⟨100, "AUD"⟩) (fun _ => .ok ⟨some "ord_1"⟩)
        (fun _ => .ok ⟨"paid", "AUD", 10000, some "quo_1", none, some "c3",
          some "u@e.co", "pi_1"⟩)
        [("c3", ⟨"c3", "rat_1", "a@b.co", [⟨"A", "B"⟩], "", "+61", "", "H", "R", "d", 0⟩)]
        [("c3", ⟨"hotel", "pending", none, none⟩)] "cs_1").bookAttempt = some req →
      (⟨"paid", "AUD", 10000, some "quo_1", none, some "c3", some "u@e.co",
        "pi_1"⟩ : StripeSession).md_quote_id = some req.quote_id
      ∧ verifySettled ((fun _ => (⟨100, "AUD"⟩ : QuoteView)) req.quote_id).total_amount
          (pyToUpper ((fun _ => (⟨100, "AUD"⟩ : QuoteView)) req.quote_id).total_currency)
          10000 (pyToUpper "AUD") = .Ok)
    ∧ (∀ freq c, mapGet [("f3", (⟨"f3", "off_1", [⟨"A", "B", "1990-01-01", none, none⟩],
          "a@b.co", "+61", "AUD", 250, 35, 285, ["ase_1"], 0⟩ : FlightCtx))]
          ((some "f3").getD "") = some c →
        (flight_success_route (fun _ => .ok ⟨some "ord_2"⟩)
            (fun _ => .ok ⟨"paid", "AUD", 28500, none, none, some "f3", none, "pi_2"⟩)
            [("f3", ⟨"f3", "off_1", [⟨"A", "B", "1990-01-01", none, none⟩],
              "a@b.co", "+61", "AUD", 250, 35, 285, ["ase_1"], 0⟩)]
            [("f3", ⟨"flight", "pending", none, none⟩)] "cs_2").bookAttempt = some freq →
        freq.pay_amount = c.amount ∧ freq.pay_currency = c.currency
        ∧ verifySettled c.amount c.currency 28500 (pyToUpper "AUD") = .Ok) :=
  C1_success_routes_reconcile_before_booking
    (fun _ => ⟨100, "AUD"⟩) (fun _ => .ok ⟨some "ord_1"⟩) (fun _ => .ok ⟨some "ord_2"⟩)
    ⟨"paid", "AUD", 10000, some "quo_1", none, some "c3", some "u@e.co", "pi_1"⟩
    ⟨"paid", "AUD", 28500, none, none, some "f3", none, "pi_2"⟩
    [("c3", ⟨"c3", "rat_1", "a@b.co", [⟨"A", "B"⟩], "", "+61", "", "H", "R", "d", 0⟩)]
    [("f3", ⟨"f3", "off_1", [⟨"A", "B", "1990-01-01", none, none⟩],
      "a@b.co", "+61", "AUD", 250, 35, 285, ["ase_1"], 0⟩)]
    [("c3", ⟨"hotel", "pending", none, none⟩)]
    [("f3", ⟨"flight", "pending", none, none⟩)]
    "cs_1" "cs_2"

/-- C1 counterexample: finalize_hotel_checkout creates a confirmed booking
record from the payment intent alone, with no authoritative price fetched and
no settled-amount reconciliation — the same inputs settle for 1 minor unit or
for 999999 minor units and both finalize as confirmed. -/
theorem C1_counterexample_finalize_hotel_no_reconciliation :
    finalize_hotel_checkout
      (fun _ => .ok ⟨"paid", "aud", 1, none, some "rat_1", none, some "u@e.co",
        "pi_1234567890"⟩)
      ⟨"cs_1", "rat_1", [⟨"A", "B"⟩], "u@e.co", "", "", "H", "R", "", ""⟩
      = .booked "BK-34567890" "bk_1234567890" "confirmed" "H" "R" 1 "AUD"
    ∧ finalize_hotel_checkout
      (fun _ => .ok ⟨"paid", "aud", 999999, none, some "rat_1", none, some "u@e.co",
        "pi_1234567890"⟩)
      ⟨"cs_1", "rat_1", [⟨"A", "B"⟩], "u@e.co", "", "", "H", "R", "", ""⟩
      = .booked "BK-34567890" "bk_1234567890" "confirmed" "H" "R" 999999 "AUD" := by
  constructor <;> decide

end ServerF

namespace ServerF

/-- C3 (amended): delivering the success callback twice for the same ctx_id
books exactly once — the first delivery books, evicts the context and records
terminal paid status; the second delivery, finding no context entry, makes no
booking call, but it does not consult the Status Tracker: it returns the
HTTP 400 error for missing guests/email context rather than reporting the
terminal paid status (which the tracker still holds from the first delivery). -/
theorem C3_duplicate_delivery_books_once
    (fq : String → QuoteView) (cb : BookingReq → Except String Booking)
    (session : StripeSession) (store : List (String × HotelCtx))
    (status : List (String × StatusEntry)) (sid qid : String) (c : HotelCtx) (b : Booking)
    (hsid : pyStrip sid ≠ "")
    (hpaid : pyToLower session.payment_status = "paid")
    (hq : session.md_quote_id = some qid)
    (hver : verifySettled (fq qid).total_amount (pyToUpper (fq qid).total_currency)
        session.amount_total (pyToUpper session.currency) ≠ .Mismatch)
    (hctx : mapGet store (session.md_ctx_id.getD "") = some c)
    (hg : c.guests ≠ [])
    (he : pyStrip (pyOr c.email (session.customer_email.getD "")) ≠ "")
    (hb : cb ⟨qid, c.guests, pyStrip (pyOr c.email (session.customer_email.getD "")),
        c.phone_number, c.stay_special_requests, session.payment_intent_id⟩ = .ok b) :
    (success_route fq cb (fun _ => .ok session) store status sid).resp = .html 200
    ∧ (success_route fq cb (fun _ => .ok session) store status sid).bookAttempt
        = some ⟨qid, c.guests, pyStrip (pyOr c.email (session.customer_email.getD "")),
            c.phone_number, c.stay_special_requests, session.payment_intent_id⟩
    ∧ (success_route fq cb (fun _ => .ok session)
        (success_route fq cb (fun _ => .ok session) store status sid).store
        (success_route fq cb (fun _ => .ok session) store status sid).status
        sid).bookAttempt = none
    ∧ (success_route fq cb (fun _ => .ok session)
        (success_route fq cb (fun _ => .ok session) store status sid).store
        (success_route fq cb (fun _ => .ok session) store status sid).status
        sid).resp = .plain "Missing guests/email context to finalize booking." 400
    ∧ (success_route fq cb (fun _ => .ok session)
        (success_route fq cb (fun _ => .ok session) store status sid).store
        (success_route fq cb (fun _ => .ok session) store status sid).status
        sid).store = (success_route fq cb (fun _ => .ok session) store status sid).store
    ∧ (success_route fq cb (fun _ => .ok session)
        (success_route fq cb (fun _ => .ok session) store status sid).store
        (success_route fq cb (fun _ => .ok session) store status sid).status
        sid).status = (success_route fq cb (fun _ => .ok session) store status sid).status
    ∧ (mapGet (success_route fq cb (fun _ => .ok session) store status sid).status
        (session.md_ctx_id.getD "")).map StatusEntry.status = some "paid" := by
  have h1 : success_route fq cb (fun _ => .ok session) store status sid =
      ⟨.html 200, mapPop store (session.md_ctx_id.getD ""),
        mapSet status (session.md_ctx_id.getD "")
          ⟨"hotel", "paid", some (pyToUpper session.currency),
            some ((session.amount_total : ℚ) /
              (if pyToUpper session.currency ∈ ZERO_DECIMAL then 1 else 100))⟩,
        some ⟨qid, c.guests, pyStrip (pyOr c.email (session.customer_email.getD "")),
          c.phone_number, c.stay_special_requests, session.payment_intent_id⟩⟩ := by
    simp [success_route, hsid, hpaid, hq, hver, hctx, hg, he, hb]
  have h2 : success_route fq cb (fun _ => .ok session)
      (mapPop store (session.md_ctx_id.getD ""))
      (mapSet status (session.md_ctx_id.getD "")
        ⟨"hotel", "paid", some (pyToUpper session.currency),
          some ((session.amount_total : ℚ) /
            (if pyToUpper session.currency ∈ ZERO_DECIMAL then 1 else 100))⟩)
      sid =
      ⟨.plain "Missing guests/email context to finalize booking." 400,
        mapPop store (session.md_ctx_id.getD ""),
        mapSet status (session.md_ctx_id.getD "")
          ⟨"hotel", "paid", some (pyToUpper session.currency),
            some ((session.amount_total : ℚ) /
              (if pyToUpper session.currency ∈ ZERO_DECIMAL then 1 else 100))⟩,
        none⟩ := by
    simp [success_route, hsid, hpaid, hq, hver, mapGet_mapPop_self]
  rw [h1]
  simp only []
  rw [h2]
  simp [mapGet_mapSet_self]

/-- C3 witness: a concrete paid session, stored context and quote on which the
two deliveries run. -/
theorem C3_duplicate_delivery_books_once_witness :
    (success_route (fun _ => ⟨100, "AUD"⟩) (fun _ => .ok ⟨some "ord_1"⟩)
      (fun _ => .ok ⟨"paid", "AUD", 10000, some "quo_1", none, some "w3",
        some "u@e.co", "pi_1"⟩)
      [("w3", ⟨"w3", "rat_1", "a@b.co", [⟨"A", "B"⟩], "", "+61", "", "H", "R", "d", 0⟩)]
      [("w3", ⟨"hotel", "pending", none, none⟩)] "cs_1").resp = .html 200
    ∧ (success_route (fun _ => ⟨100, "AUD"⟩) (fun _ => .ok ⟨some "ord_1"⟩)
      (fun _ => .ok ⟨"paid", "AUD", 10000, some "quo_1", none, some "w3",
        some "u@e.co", "pi_1"⟩)
      [("w3", ⟨"w3", "rat_1", "a@b.co", [⟨"A", "B"⟩], "", "+61", "", "H", "R", "d", 0⟩)]
      [("w3", ⟨"hotel", "pending", none, none⟩)] "cs_1").bookAttempt
        = some ⟨"quo_1", [⟨"A", "B"⟩],
            pyStrip (pyOr "a@b.co" ((some "u@e.co").getD "")), "+61", "", "pi_1"⟩
    ∧ (success_route (fun _ => ⟨100, "AUD"⟩) (fun _ => .ok ⟨some "ord_1"⟩)
      (fun _ => .ok ⟨"paid", "AUD", 10000, some "quo_1", none, some "w3",
        some "u@e.co", "pi_1"⟩)
      (success_route (fun _ => ⟨100, "AUD"⟩) (fun _ => .ok ⟨some "ord_1"⟩)
        (fun _ => .ok ⟨"paid", "AUD", 10000, some "quo_1", none, some "w3",
          some "u@e.co", "pi_1"⟩)
        [("w3", ⟨"w3", "rat_1", "a@b.co", [⟨"A", "B"⟩], "", "+61", "", "H", "R", "d", 0⟩)]
        [("w3", ⟨"hotel", "pending", none, none⟩)] "cs_1").store
      (success_route (fun _ => ⟨100, "AUD"⟩) (fun _ => .ok ⟨some "ord_1"⟩)
        (fun _ => .ok ⟨"paid", "AUD", 10000, some "quo_1", none, some "w3",
          some "u@e.co", "pi_1"⟩)
        [("w3", ⟨"w3", "rat_1", "a@b.co", [⟨"A", "B"⟩], "", "+61", "", "H", "R", "d", 0⟩)]
        [("w3", ⟨"hotel", "pending", none, none⟩)] "cs_1").status
      "cs_1").bookAttempt = none
    ∧ (success_route (fun _ => ⟨100, "AUD"⟩) (fun _ => .ok ⟨some "ord_1"⟩)
      (fun _ => .ok ⟨"paid", "AUD", 10000, some "quo_1", none, some "w3",
        some "u@e.co", "pi_1"⟩)
      (success_route (fun _ => ⟨100, "AUD"⟩) (fun _ => .ok ⟨some "ord_1"⟩)
        (fun _ => .ok ⟨"paid", "AUD", 10000, some "quo_1", none, some "w3",
          some "u@e.co", "pi_1"⟩)
        [("w3", ⟨"w3", "rat_1", "a@b.co", [⟨"A", "B"⟩], "", "+61", "", "H", "R", "d", 0⟩)]
        [("w3", ⟨"hotel", "pending", none, none⟩)] "cs_1").store
      (success_route (fun _ => ⟨100, "AUD"⟩) (fun _ => .ok ⟨some "ord_1"⟩)
        (fun _ => .ok ⟨"paid", "AUD", 10000, some "quo_1", none, some "w3",
          some "u@e.co", "pi_1"⟩)
        [("w3", ⟨"w3", "rat_1", "a@b.co", [⟨"A", "B"⟩], "", "+61", "", "H", "R", "d", 0⟩)]
        [("w3", ⟨"hotel", "pending", none, none⟩)] "cs_1").status
      "cs_1").resp = .plain "Missing guests/email context to finalize booking." 400
    ∧ (mapGet (success_route (fun _ => ⟨100, "AUD"⟩) (fun _ => .ok ⟨some "ord_1"⟩)
      (fun _ => .ok ⟨"paid", "AUD", 10000, some "quo_1", none, some "w3",
        some "u@e.co", "pi_1"⟩)
      [("w3", ⟨"w3", "rat_1", "a@b.co", [⟨"A", "B"⟩], "", "+61", "", "H", "R", "d", 0⟩)]
      [("w3", ⟨"hotel", "pending", none, none⟩)] "cs_1").status
        ((⟨"paid", "AUD", 10000, some "quo_1", none, some "w3", some "u@e.co",
          "pi_1"⟩ : StripeSession).md_ctx_id.getD "")).map StatusEntry.status
        = some "paid" := by
  have hver : verifySettled ((fun _ => (⟨100, "AUD"⟩ : QuoteView)) "quo_1").total_amount
      (pyToUpper ((fun _ => (⟨100, "AUD"⟩ : QuoteView)) "quo_1").total_currency)
      ((⟨"paid", "AUD", 10000, some "quo_1", none, some "w3", some "u@e.co",
        "pi_1"⟩ : StripeSession).amount_total)
      (pyToUpper ((⟨"paid", "AUD", 10000, some "quo_1", none, some "w3", some "u@e.co",
        "pi_1"⟩ : StripeSession).currency)) ≠ .Mismatch := by
    have hup : pyToUpper "AUD" = "AUD" := by decide
    have hok : verifySettled 100 "AUD" 10000 "AUD" = .Ok := by
      simp [verifySettled, toMinorUnits, pyIntTrunc, ZERO_DECIMAL]
      norm_num
    simp only [hup]
    rw [hok]
    decide
  refine ⟨?_, ?_, ?_, ?_, ?_⟩
  · exact (C3_duplicate_delivery_books_once (fun _ => ⟨100, "AUD"⟩)
      (fun _ => .ok ⟨some "ord_1"⟩)
      ⟨"paid", "AUD", 10000, some "quo_1", none, some "w3", some "u@e.co", "pi_1"⟩
      [("w3", ⟨"w3", "rat_1", "a@b.co", [⟨"A", "B"⟩], "", "+61", "", "H", "R", "d", 0⟩)]
      [("w3", ⟨"hotel", "pending", none, none⟩)] "cs_1" "quo_1"
      ⟨"w3", "rat_1", "a@b.co", [⟨"A", "B"⟩], "", "+61", "", "H", "R", "d", 0⟩
      ⟨some "ord_1"⟩ (by decide) (by decide) rfl hver
      (by simp [mapGet, List.find?]) (by decide) (by decide) rfl).1
  · exact (C3_duplicate_delivery_books_once (fun _ => ⟨100, "AUD"⟩)
      (fun _ => .ok ⟨some "ord_1"⟩)
      ⟨"paid", "AUD", 10000, some "quo_1", none, some "w3", some "u@e.co", "pi_1"⟩
      [("w3", ⟨"w3", "rat_1", "a@b.co", [⟨"A", "B"⟩], "", "+61", "", "H", "R", "d", 0⟩)]
      [("w3", ⟨"hotel", "pending", none, none⟩)] "cs_1" "quo_1"
      ⟨"w3", "rat_1", "a@b.co", [⟨"A", "B"⟩], "", "+61", "", "H", "R", "d", 0⟩
      ⟨some "ord_1"⟩ (by decide) (by decide) rfl hver
      (by simp [mapGet, List.find?]) (by decide) (by decide) rfl).2.1
  · exact (C3_duplicate_delivery_books_once (fun _ => ⟨100, "AUD"⟩)
      (fun _ => .ok ⟨some "ord_1"⟩)
      ⟨"paid", "AUD", 10000, some "quo_1", none, some "w3", some "u@e.co", "pi_1"⟩
      [("w3", ⟨"w3", "rat_1", "a@b.co", [⟨"A", "B"⟩], "", "+61", "", "H", "R", "d", 0⟩)]
      [("w3", ⟨"hotel", "pending", none, none⟩)] "cs_1" "quo_1"
      ⟨"w3", "rat_1", "a@b.co", [⟨"A", "B"⟩], "", "+61", "", "H", "R", "d", 0⟩
      ⟨some "ord_1"⟩ (by decide) (by decide) rfl hver
      (by simp [mapGet, List.find?]) (by decide) (by decide) rfl).2.2.1
  · exact (C3_duplicate_delivery_books_once (fun _ => ⟨100, "AUD"⟩)
      (fun _ => .ok ⟨some "ord_1"⟩)
      ⟨"paid", "AUD", 10000, some "quo_1", none, some "w3", some "u@e.co", "pi_1"⟩
      [("w3", ⟨"w3", "rat_1", "a@b.co", [⟨"A", "B"⟩], "", "+61", "", "H", "R", "d", 0⟩)]
      [("w3", ⟨"hotel", "pending", none, none⟩)] "cs_1" "quo_1"
      ⟨"w3", "rat_1", "a@b.co", [⟨"A", "B"⟩], "", "+61", "", "H", "R", "d", 0⟩
      ⟨some "ord_1"⟩ (by decide) (by decide) rfl hver
      (by simp [mapGet, List.find?]) (by decide) (by decide) rfl).2.2.2.1
  · exact (C3_duplicate_delivery_books_once (fun _ => ⟨100, "AUD"⟩)
      (fun _ => .ok ⟨some "ord_1"⟩)
      ⟨"paid", "AUD", 10000, some "quo_1", none, some "w3", some "u@e.co", "pi_1"⟩
      [("w3", ⟨"w3", "rat_1", "a@b.co", [⟨"A", "B"⟩], "", "+61", "", "H", "R", "d", 0⟩)]
      [("w3", ⟨"hotel", "pending", none, none⟩)] "cs_1" "quo_1"
      ⟨"w3", "rat_1", "a@b.co", [⟨"A", "B"⟩], "", "+61", "", "H", "R", "d", 0⟩
      ⟨some "ord_1"⟩ (by decide) (by decide) rfl hver
      (by simp [mapGet, List.find?]) (by decide) (by decide) rfl).2.2.2.2.2.2

end ServerF

namespace ServerF

/-- C3 counterexample: after a successful first delivery for ctx x3, the
second delivery of the same success callback returns the HTTP 400
missing-context error — it does not consult the Status Tracker and does not
report the terminal paid status, contradicting the claim that the second
delivery is treated as already-finalized rather than an error. -/
theorem C3_counterexample_second_delivery_is_error :
    (success_route (fun _ => ⟨100, "AUD"⟩) (fun _ => .ok ⟨some "ord_1"⟩)
      (fun _ => .ok ⟨"paid", "AUD", 10000, some "quo_1", none, some "x3",
        some "u@e.co", "pi_1"⟩)
      (success_route (fun _ => ⟨100, "AUD"⟩) (fun _ => .ok ⟨some "ord_1"⟩)
        (fun _ => .ok ⟨"paid", "AUD", 10000, some "quo_1", none, some "x3",
          some "u@e.co", "pi_1"⟩)
        [("x3", ⟨"x3", "rat_1", "a@b.co", [⟨"A", "B"⟩], "", "+61", "", "H", "R", "d", 0⟩)]
        [("x3", ⟨"hotel", "pending", none, none⟩)] "cs_1").store
      (success_route (fun _ => ⟨100, "AUD"⟩) (fun _ => .ok ⟨some "ord_1"⟩)
        (fun _ => .ok ⟨"paid", "AUD", 10000, some "quo_1", none, some "x3",
          some "u@e.co", "pi_1"⟩)
        [("x3", ⟨"x3", "rat_1", "a@b.co", [⟨"A", "B"⟩], "", "+61", "", "H", "R", "d", 0⟩)]
        [("x3", ⟨"hotel", "pending", none, none⟩)] "cs_1").status
      "cs_1").resp = .plain "Missing guests/email context to finalize booking." 400
    ∧ (Response.plain "Missing guests/email context to finalize booking." 400).code
        = 400 := by
  have hup : pyToUpper "AUD" = "AUD" := by decide
  have hok : verifySettled 100 "AUD" 10000 "AUD" = .Ok := by
    simp [verifySettled, toMinorUnits, pyIntTrunc, ZERO_DECIMAL]
    norm_num
  have hpd : pyToLower "paid" = "paid" := by decide
  have hcs : pyStrip "cs_1" = "cs_1" := by decide
  have hmail : pyStrip (pyOr "a@b.co" ((some "u@e.co").getD "")) = "a@b.co" := by decide
  constructor
  · simp [success_route, mapGet, mapPop, mapSet, List.find?, hup, hok, hpd, hcs, hmail]
  · decide

/-- C10: when the travel-provider booking call raised during hotel
finalization, after the payment was verified and reconciled, the handler
returns the 500 error response and leaves the shared state unchanged: the
Context Store still holds the ctx_id entry and the Status Tracker entry is
untouched (the paid status is recorded only after a successful booking call). -/
theorem C10_booking_failure_leaves_state_unchanged
    (fq : String → QuoteView) (session : StripeSession)
    (store : List (String × HotelCtx)) (status : List (String × StatusEntry))
    (sid qid msg : String) (c : HotelCtx)
    (hsid : pyStrip sid ≠ "")
    (hpaid : pyToLower session.payment_status = "paid")
    (hq : session.md_quote_id = some qid)
    (hver : verifySettled (fq qid).total_amount (pyToUpper (fq qid).total_currency)
        session.amount_total (pyToUpper session.currency) ≠ .Mismatch)
    (hctx : mapGet store (session.md_ctx_id.getD "") = some c)
    (hg : c.guests ≠ [])
    (he : pyStrip (pyOr c.email (session.customer_email.getD "")) ≠ "") :
    (success_route fq (fun _ => .error msg) (fun _ => .ok session)
        store status sid).resp = .plain ("Finalize error: " ++ msg) 500
    ∧ (success_route fq (fun _ => .error msg) (fun _ => .ok session)
        store status sid).bookAttempt
        = some ⟨qid, c.guests, pyStrip (pyOr c.email (session.customer_email.getD "")),
            c.phone_number, c.stay_special_requests, session.payment_intent_id⟩
    ∧ (success_route fq (fun _ => .error msg) (fun _ => .ok session)
        store status sid).store = store
    ∧ (success_route fq (fun _ => .error msg) (fun _ => .ok session)
        store status sid).status = status
    ∧ mapGet (success_route fq (fun _ => .error msg) (fun _ => .ok session)
        store status sid).store (session.md_ctx_id.getD "") = some c := by
  have h1 : success_route fq (fun _ => .error msg) (fun _ => .ok session)
      store status sid =
      ⟨.plain ("Finalize error: " ++ msg) 500, store, status,
        some ⟨qid, c.guests, pyStrip (pyOr c.email (session.customer_email.getD "")),
          c.phone_number, c.stay_special_requests, session.payment_intent_id⟩⟩ := by
    simp [success_route, hsid, hpaid, hq, hver, hctx, hg, he]
  rw [h1]
  exact ⟨rfl, rfl, rfl, rfl, hctx⟩

/-- C10 witness: a concrete finalization in which the booking call raises. -/
theorem C10_booking_failure_leaves_state_unchanged_witness :
    (success_route (fun _ => ⟨100, "AUD"⟩) (fun _ => .error "boom")
        (fun _ => .ok ⟨"paid", "AUD", 10000, some "quo_1", none, some "y3",
          some "u@e.co", "pi_1"⟩)
        [("y3", ⟨"y3", "rat_1", "a@b.co", [⟨"A", "B"⟩], "", "+61", "", "H", "R", "d", 0⟩)]
        [("y3", ⟨"hotel", "pending", none, none⟩)] "cs_1").resp
        = .plain ("Finalize error: " ++ "boom") 500
    ∧ (success_route (fun _ => ⟨100, "AUD"⟩) (fun _ => .error "boom")
        (fun _ => .ok ⟨"paid", "AUD", 10000, some "quo_1", none, some "y3",
          some "u@e.co", "pi_1"⟩)
        [("y3", ⟨"y3", "rat_1", "a@b.co", [⟨"A", "B"⟩], "", "+61", "", "H", "R", "d", 0⟩)]
        [("y3", ⟨"hotel", "pending", none, none⟩)] "cs_1").bookAttempt
        = some ⟨"quo_1", [⟨"A", "B"⟩],
            pyStrip (pyOr "a@b.co" ((some "u@e.co").getD "")), "+61", "", "pi_1"⟩
    ∧ (success_route (fun _ => ⟨100, "AUD"⟩) (fun _ => .error "boom")
        (fun _ => .ok ⟨"paid", "AUD", 10000, some "quo_1", none, some "y3",
          some "u@e.co", "pi_1"⟩)
        [("y3", ⟨"y3", "rat_1", "a@b.co", [⟨"A", "B"⟩], "", "+61", "", "H", "R", "d", 0⟩)]
        [("y3", ⟨"hotel", "pending", none, none⟩)] "cs_1").store
        = [("y3", ⟨"y3", "rat_1", "a@b.co", [⟨"A", "B"⟩], "", "+61", "", "H", "R", "d", 0⟩)]
    ∧ (success_route (fun _ => ⟨100, "AUD"⟩) (fun _ => .error "boom")
        (fun _ => .ok ⟨"paid", "AUD", 10000, some "quo_1", none, some "y3",
          some "u@e.co", "pi_1"⟩)
        [("y3", ⟨"y3", "rat_1", "a@b.co", [⟨"A", "B"⟩], "", "+61", "", "H", "R", "d", 0⟩)]
        [("y3", ⟨"hotel", "pending", none, none⟩)] "cs_1").status
        = [("y3", ⟨"hotel", "pending", none, none⟩)]
    ∧ mapGet (success_route (fun _ => ⟨100, "AUD"⟩) (fun _ => .error "boom")
        (fun _ => .ok ⟨"paid", "AUD", 10000, some "quo_1", none, some "y3",
          some "u@e.co", "pi_1"⟩)
        [("y3", ⟨"y3", "rat_1", "a@b.co", [⟨"A", "B"⟩], "", "+61", "", "H", "R", "d", 0⟩)]
        [("y3", ⟨"hotel", "pending", none, none⟩)] "cs_1").store
        ((⟨"paid", "AUD", 10000, some "quo_1", none, some "y3", some "u@e.co",
          "pi_1"⟩ : StripeSession).md_ctx_id.getD "")
        = some ⟨"y3", "rat_1", "a@b.co", [⟨"A", "B"⟩], "", "+61", "", "H", "R", "d", 0⟩ := by
  have hver : verifySettled ((fun _ => (⟨100, "AUD"⟩ : QuoteView)) "quo_1").total_amount
      (pyToUpper ((fun _ => (⟨100, "AUD"⟩ : QuoteView)) "quo_1").total_currency)
      ((⟨"paid", "AUD", 10000, some "quo_1", none, some "y3", some "u@e.co",
        "pi_1"⟩ : StripeSession).amount_total)
      (pyToUpper ((⟨"paid", "AUD", 10000, some "quo_1", none, some "y3", some "u@e.co",
        "pi_1"⟩ : StripeSession).currency)) ≠ .Mismatch := by
    have hup : pyToUpper "AUD" = "AUD" := by decide
    have hok : verifySettled 100 "AUD" 10000 "AUD" = .Ok := by
      simp [verifySettled, toMinorUnits, pyIntTrunc, ZERO_DECIMAL]
      norm_num
    simp only [hup]
    rw [hok]
    decide
  exact C10_booking_failure_leaves_state_unchanged (fun _ => ⟨100, "AUD"⟩)
    ⟨"paid", "AUD", 10000, some "quo_1", none, some "y3", some "u@e.co", "pi_1"⟩
    [("y3", ⟨"y3", "rat_1", "a@b.co", [⟨"A", "B"⟩], "", "+61", "", "H", "R", "d", 0⟩)]
    [("y3", ⟨"hotel", "pending", none, none⟩)] "cs_1" "quo_1" "boom"
    ⟨"y3", "rat_1", "a@b.co", [⟨"A", "B"⟩], "", "+61", "", "H", "R", "d", 0⟩
    (by decide) (by decide) rfl hver (by simp [mapGet, List.find?])
    (by decide) (by decide)

end ServerF

namespace ServerF

/-- C9: a seat-inclusive flight checkout with base fare 250.00 AUD and a seat
selection the freshly fetched seat map prices at 35.00 AUD stores a reconciled
authoritative total of 285.00 AUD, whose minor-unit conversion for the payment
session is 28500; the stored seat total is exactly the one computed from the
seat map fetched inside the call (the caller supplies only seat ids, never
prices). -/
theorem C9_seat_inclusive_flight_checkout_total
    (fo : String → Except String OfferData)
    (gsm : String → List SeatOption)
    (args : StartFlightArgs) (cid : String) (now : ℚ)
    (store : List (String × FlightCtx)) (status : List (String × StatusEntry))
    (hpref : pyStrip (pyToLower args.seat_preference) ∈
      (["aisle", "middle", "window"] : List String))
    (hoff : pyStrip args.offer_id ≠ "")
    (hpass : args.passengers ≠ [])
    (hpf : ∀ p ∈ args.passengers,
      ¬(p.given_name = "" ∨ p.family_name = "" ∨ p.born_on = ""))
    (hem : pyStrip args.email ≠ "")
    (hemok : emailOk (pyStrip args.email) = true)
    (hph : pyStrip args.phone_number ≠ "")
    (hsel : args.selected_seats ≠ [])
    (hfo : fo (pyStrip args.offer_id) = .ok ⟨250, "AUD"⟩)
    (hcost : calculate_seat_costs args.selected_seats (gsm (pyStrip args.offer_id))
      = 35) :
    (start_flight_checkout fo gsm args cid now store status).outcome
      = .checkoutReady cid
    ∧ ∃ ctx, mapGet (start_flight_checkout fo gsm args cid now store status).store cid
        = some ctx
      ∧ ctx.base_amount = 250
      ∧ ctx.seat_total
          = calculate_seat_costs args.selected_seats (gsm (pyStrip args.offer_id))
      ∧ ctx.seat_total = 35
      ∧ ctx.amount = 285
      ∧ ctx.currency = "AUD"
      ∧ toMinorUnits ctx.amount ctx.currency = 28500 := by
  have hp4 : pyStrip (pyToLower args.seat_preference) ∈
      (["aisle", "middle", "window", "none"] : List String) := by
    rcases (by simpa using hpref) with h | h | h <;> simp [h]
  have hmb : ¬(pyStrip args.offer_id = "" ∨ args.passengers = [] ∨
      (∃ p ∈ args.passengers,
        p.given_name = "" ∨ p.family_name = "" ∨ p.born_on = "") ∨
      pyStrip args.email = "" ∨ emailOk (pyStrip args.email) = false ∨
      pyStrip args.phone_number = "") := by
    push_neg
    refine ⟨hoff, hpass, ?_, hem, ?_, hph⟩
    · intro p hp
      have := hpf p hp
      push_neg at this
      exact this
    · simp [hemok]
  have hup : pyToUpper "AUD" = "AUD" := by decide
  have hr2 : pyRound2 (250 + 35) = 285 := by
    norm_num [pyRound2, round_eq]
  have h28500 : toMinorUnits 285 "AUD" = 28500 := by
    simp [toMinorUnits, pyIntTrunc, ZERO_DECIMAL]
    norm_num
  have hrun : start_flight_checkout fo gsm args cid now store status =
      ⟨.checkoutReady cid,
        mapSet store cid
          ⟨cid, pyStrip args.offer_id,
            args.passengers.map (fun p =>
              { p with
                email := some (p.email.getD (pyStrip args.email))
                phone_number := some (p.phone_number.getD
                  (pyStrip args.phone_number)) }),
            pyStrip args.email, pyStrip args.phone_number, "AUD", 250,
            calculate_seat_costs args.selected_seats (gsm (pyStrip args.offer_id)),
            pyRound2 (250 + calculate_seat_costs args.selected_seats
              (gsm (pyStrip args.offer_id))),
            args.selected_seats, now⟩,
        mapSet status cid
          ⟨"flight", "pending", some "AUD",
            some (pyRound2 (250 + calculate_seat_costs args.selected_seats
              (gsm (pyStrip args.offer_id))))⟩⟩ := by
    simp [start_flight_checkout, hp4, hmb, hfo, hup, hsel]
  rw [hrun]
  refine ⟨rfl, ⟨_, mapGet_mapSet_self store cid _, rfl, rfl, ?_, ?_, rfl, ?_⟩⟩
  · exact hcost
  · rw [hcost]
    exact hr2
  · rw [hcost, hr2]
    exact h28500

/-- C9 witness: one passenger, seat preference window, one selected seat ase_1
priced 35.00 by the freshly fetched map, base fare 250.00 AUD. -/
theorem C9_seat_inclusive_flight_checkout_total_witness :
    (start_flight_checkout (fun _ => .ok ⟨250, "AUD"⟩)
        (fun _ => [⟨"ase_1", 35⟩])
        ⟨"off_1", [⟨"A", "B", "1990-01-01", none, none⟩], "a@b.co", "+61",
          "window", ["ase_1"]⟩ "f9" 0 [] []).outcome = .checkoutReady "f9"
    ∧ ∃ ctx, mapGet (start_flight_checkout (fun _ => .ok ⟨250, "AUD"⟩)
        (fun _ => [⟨"ase_1", 35⟩])
        ⟨"off_1", [⟨"A", "B", "1990-01-01", none, none⟩], "a@b.co", "+61",
          "window", ["ase_1"]⟩ "f9" 0 [] []).store "f9" = some ctx
      ∧ ctx.base_amount = 250
      ∧ ctx.seat_total = calculate_seat_costs ["ase_1"]
          ((fun _ => [⟨"ase_1", 35⟩] : String → List SeatOption)
            (pyStrip (⟨"off_1", [⟨"A", "B", "1990-01-01", none, none⟩], "a@b.co",
              "+61", "window", ["ase_1"]⟩ : StartFlightArgs).offer_id))
      ∧ ctx.seat_total = 35
      ∧ ctx.amount = 285
      ∧ ctx.currency = "AUD"
      ∧ toMinorUnits ctx.amount ctx.currency = 28500 := by
  have hcost : calculate_seat_costs ["ase_1"] [⟨"ase_1", 35⟩] = 35 := by
    simp [calculate_seat_costs, List.find?]
  exact C9_seat_inclusive_flight_checkout_total (fun _ => .ok ⟨250, "AUD"⟩)
    (fun _ => [⟨"ase_1", 35⟩])
    ⟨"off_1", [⟨"A", "B", "1990-01-01", none, none⟩], "a@b.co", "+61",
      "window", ["ase_1"]⟩ "f9" 0 [] []
    (by decide) (by decide) (by decide) (by decide) (by decide) (by decide)
    (by decide) (by decide) rfl hcost

end ServerF
